import Mathlib

/-!
# Verification of the RealTime backend authentication gateway

Shallow embedding of the repository's auth gateway: the token service
(`jsonwebtoken` sign/verify as used in the controllers), the session
middleware (`authenticateToken`), the Firestore user DAO (`UserDAO`),
and the `AuthController` operations (register, login, loginSocial,
getProfile, updateProfile, deleteMe, forgotPassword, resetPassword).

External collaborators (the Firebase identity provider, the Firestore
document store, the Brevo email API) are not part of the repository's
source; where their behavior is needed it is modelled from the spec
(sections 4.2-4.4) and marked as such in the doc comments.

Machine times are seconds since epoch as plain naturals; token lifetimes
mirror the source (`24h` for register, `7d` for login/social, `1h` for
reset tokens).
-/

namespace RT

/-- One hour in seconds (the reset-token lifetime, `expiresIn: '1h'`). -/
def HOUR : Nat := 3600

/-- One day in seconds (the register session lifetime, `expiresIn: '24h'`). -/
def DAY : Nat := 24 * HOUR

/-- Seven days in seconds (the login/social session lifetime, `expiresIn: '7d'`). -/
def WEEK : Nat := 7 * DAY

/-- JWT payload shape used by this backend: the controllers only ever sign
objects with an optional `userId` claim and an optional `email` claim
(`jwt.sign({ userId })`, `jwt.sign({ userId, email })`, `jwt.sign({ email })`).
A claim signed as `undefined` is omitted by `jsonwebtoken`, i.e. `none`. -/
structure Payload where
  userId : Option String
  email : Option String
deriving Repr, DecidableEq

/-- A token string handed to `jwt.verify`: either not a well-formed JWT at
all, or a token signed with some payload, signing secret, issue time and
expiry time (seconds). -/
inductive Token where
  | malformed (s : String)
  | signed (payload : Payload) (secret : String) (iat : Nat) (exp : Nat)
deriving Repr, DecidableEq

/-- The failure modes of `jwt.verify`: `JsonWebTokenError` for a malformed
token, `JsonWebTokenError: invalid signature`, and `TokenExpiredError`. -/
inductive VerifyError where
  | malformed
  | badSignature
  | expired
deriving Repr, DecidableEq

/-- Signing: `jwt.sign(payload, secret, { expiresIn: ttl })` at time `now`. -/
def jwtSign (p : Payload) (secret : String) (now ttl : Nat) : Token :=
  .signed p secret now (now + ttl)

/-- Verification: `jwt.verify(token, secret)` at time `now`: signature is checked first,
then expiry; `jsonwebtoken` rejects as expired exactly when
`now >= exp` (clockTolerance 0). -/
def jwtVerify (t : Token) (secret : String) (now : Nat) :
    Except VerifyError Payload :=
  match t with
  | .malformed _ => .error .malformed
  | .signed p s _ exp =>
    if s ≠ secret then .error .badSignature
    else if exp ≤ now then .error .expired
    else .ok p

/-- JavaScript truthiness of a possibly-absent string value
(`undefined` and the empty string are falsy). -/
def truthyS (o : Option String) : Bool :=
  match o with
  | none => false
  | some s => s ≠ ""

/-- JavaScript truthiness of a possibly-absent number value
(`undefined` and `0` are falsy). -/
def truthyI (o : Option Int) : Bool :=
  match o with
  | none => false
  | some n => n ≠ 0

/-- Whitespace for the purposes of `String.prototype.trim` (the ASCII
whitespace characters relevant here). -/
def isJsSpace (c : Char) : Bool :=
  c = ' ' ∨ c = '\t' ∨ c = '\n' ∨ c = '\r'

/-- Drop leading whitespace from a character list. -/
def dropWs : List Char → List Char
  | [] => []
  | c :: cs => if isJsSpace c then dropWs cs else c :: cs

/-- Trim whitespace on both ends, as `s.trim()` does. -/
def trimChars (l : List Char) : List Char :=
  ((dropWs (dropWs l).reverse)).reverse

/-- Lowercase one character, as `s.toLowerCase()` does on ASCII. -/
def toLowerChar (c : Char) : Char :=
  if 'A' ≤ c ∧ c ≤ 'Z' then Char.ofNat (c.toNat + 32) else c

/-- Email normalization as written in the controllers:
`email.trim().toLowerCase()`. -/
def normEmail (s : String) : String :=
  ((trimChars s.data).map toLowerChar).asString

/-- Longest leading run of decimal digits. -/
def takeDigits : List Char → List Char
  | [] => []
  | c :: cs => if c.isDigit then c :: takeDigits cs else []

/-- Value of a digit string, most significant first. -/
def digitsToNat (l : List Char) : Nat :=
  l.foldl (fun acc c => acc * 10 + (c.toNat - 48)) 0

/-- Coercion `parseInt(s, 10)`: skip surrounding whitespace, optional sign, then the
longest leading digit run; `none` is JavaScript's `NaN` (no digits). -/
def parseInt10 (s : String) : Option Int :=
  let core : Bool × List Char :=
    match trimChars s.data with
    | '-' :: rest => (true, rest)
    | '+' :: rest => (false, rest)
    | cs => (false, cs)
  let ds := takeDigits core.2
  if ds.isEmpty then none
  else if core.1 then some (-(digitsToNat ds : Int))
  else some ((digitsToNat ds : Int))

/-- Splitting on single spaces, as `displayName.split(' ')` does: empty
segments are kept, and the empty string splits to one empty segment. -/
def splitSp (l : List Char) : List (List Char) :=
  match l with
  | [] => [[]]
  | c :: cs =>
    let r := splitSp cs
    if c = ' ' then [] :: r
    else (c :: r.headD []) :: r.tail

/-- Joining with single spaces, as `parts.join(' ')` does. -/
def joinSp : List (List Char) → List Char
  | [] => []
  | [w] => w
  | w :: ws => w ++ ' ' :: joinSp ws

/-! ## The session middleware (`authenticateToken` in `middlewares/auth`) -/

/-- The `Authorization` header of a request: absent, present without a
second whitespace-separated word (so `authHeader.split(' ')[1]` is
`undefined` or the falsy `""`), or `Bearer <token>`. -/
inductive AuthHeader where
  | missing
  | noToken
  | bearer (t : Token)
deriving Repr, DecidableEq

/-- Extraction `authHeader && authHeader.split(' ')[1]` — the bearer token,
if any truthy one is present. -/
def tokenOf : AuthHeader → Option Token
  | .missing => none
  | .noToken => none
  | .bearer t => some t

/-- Outcome of the middleware: either a response is sent and the chain
stops (the route handler is never reached), or the decoded payload is
attached to `req.user` and `next()` runs the handler. -/
inductive AuthResult where
  | reject (status : Nat)
  | attach (p : Payload)
deriving Repr, DecidableEq

/-- Middleware `authenticateToken`: 401 when no token is extracted from the header,
403 when `jwt.verify` fails, otherwise attach the decoded payload. -/
def authenticateToken (h : AuthHeader) (secret : String) (now : Nat) :
    AuthResult :=
  match tokenOf h with
  | none => .reject 401
  | some t =>
    match jwtVerify t secret now with
    | .error _ => .reject 403
    | .ok p => .attach p

/-! ## Data model: Firestore profile documents and identity accounts -/

/-- What `UserDAO` stores in a `users` document (`userRef.set({...})`):
the profile fields minus the id, which is the document key. -/
structure UserDoc where
  name : String
  lastname : String
  email : String
  age : Int
  provider : String
deriving Repr, DecidableEq

/-- The `User` object the DAO returns to the service layer
(`models/User.ts`, with the always-populated `provider`). -/
structure User where
  id : String
  name : String
  lastname : String
  email : String
  age : Int
  provider : String
deriving Repr, DecidableEq

/-- The `UserCreate` payload (`models/User.ts`). -/
structure UserCreate where
  name : String
  lastname : String
  email : String
  password : String
  age : Int
  provider : Option String
  uid : Option String
deriving Repr, DecidableEq

/-- The `UserUpdate` partial payload (`models/User.ts`); destructuring an
absent body field yields `undefined`, i.e. `none`. -/
structure UserUpdate where
  name : Option String
  lastname : Option String
  email : Option String
  age : Option Int
deriving Repr, DecidableEq

/-- The `users` collection of the document store, keyed by document id.
Modelled from the spec (section 4.3): single-document reads and writes. -/
def Store := String → Option UserDoc

/-- Modelled from the spec (section 4.2): an account record of the external
identity provider — uid, login email, credential, display name and the
disabled flag. The provider enforces email uniqueness. -/
structure Account where
  uid : String
  email : String
  password : String
  displayName : String
  disabled : Bool
deriving Repr, DecidableEq

/-- Modelled from the spec: look up an identity account by uid
(`auth.getUser`). -/
def findByUid (accounts : List Account) (uid : String) : Option Account :=
  accounts.find? (fun a => a.uid == uid)

/-- Modelled from the spec: look up an identity account by email
(`auth.getUserByEmail`, and the REST credential check's account lookup). -/
def findByEmail (accounts : List Account) (email : String) : Option Account :=
  accounts.find? (fun a => a.email == email)

/-- Modelled from the spec: `auth.updateUser(uid, { disabled: true })`;
fails (`auth/user-not-found`) when no account has this uid; idempotent. -/
def setDisabled (accounts : List Account) (uid : String) :
    Option (List Account) :=
  match findByUid accounts uid with
  | none => none
  | some _ =>
    some (accounts.map fun a =>
      if a.uid = uid then { a with disabled := true } else a)

/-- Modelled from the spec: `auth.updateUser(uid, { password })` —
overwrite the credential of the account with this uid. -/
def setPassword (accounts : List Account) (uid pw : String) : List Account :=
  accounts.map fun a => if a.uid = uid then { a with password := pw } else a

/-- The state the gateway acts on: the identity provider's accounts and
the document store's `users` collection. -/
structure ServerState where
  auth : List Account
  store : Store

/-! ## `UserDAO` (dao/UserDAO.ts) -/

/-- The `User` object assembled from a fetched document
(`{ id: doc.id, ...doc.data() }`). -/
def userOfDoc (id : String) (d : UserDoc) : User :=
  ⟨id, d.name, d.lastname, d.email, d.age, d.provider⟩

/-- DAO `UserDAO.createUser`: the document id is `userData.uid ||` a freshly
generated id (`freshId` stands for `db.collection('users').doc().id`);
the provider defaults to `'email'`; the document is written with `set`
and the assembled `User` returned. -/
def UserDAO.createUser (store : Store) (userData : UserCreate)
    (freshId : String) : User × Store :=
  let docId :=
    match userData.uid with
    | some s => if s ≠ "" then s else freshId
    | none => freshId
  let provider :=
    match userData.provider with
    | some p => if p ≠ "" then p else "email"
    | none => "email"
  let u : User :=
    ⟨docId, userData.name, userData.lastname, userData.email,
      userData.age, provider⟩
  (u, fun j => if j = docId then
        some ⟨u.name, u.lastname, u.email, u.age, u.provider⟩
      else store j)

/-- DAO `UserDAO.getUserById`: fetch the document, `null` when absent. -/
def UserDAO.getUserById (store : Store) (id : String) : Option User :=
  (store id).map (userOfDoc id)

/-- The update map `UserDAO.updateUser` builds: a field enters `updateData`
only when its value is truthy (`if (updates.name) updateData.name = ...`). -/
structure UpdateData where
  name : Option String
  lastname : Option String
  email : Option String
  age : Option Int
deriving Repr, DecidableEq

/-- Field-by-field truthiness filter producing the `updateData` map. -/
def mkUpdateData (u : UserUpdate) : UpdateData :=
  ⟨if truthyS u.name then u.name else none,
   if truthyS u.lastname then u.lastname else none,
   if truthyS u.email then u.email else none,
   if truthyI u.age then u.age else none⟩

/-- Modelled from the spec (section 4.3): the document store's `update`
merges the provided fields into the stored document; absent fields are
unchanged. -/
def applyUpdateData (d : UserDoc) (ud : UpdateData) : UserDoc :=
  ⟨ud.name.getD d.name, ud.lastname.getD d.lastname,
   ud.email.getD d.email, ud.age.getD d.age, d.provider⟩

/-- DAO `UserDAO.updateUser`: build `updateData` by truthiness, `update` the
document (throws `NOT_FOUND` when the document is missing, modelled as
`none`), refetch and return the merged `User`. -/
def UserDAO.updateUser (store : Store) (id : String) (u : UserUpdate) :
    Option (User × Store) :=
  match store id with
  | none => none
  | some d =>
    let d2 := applyUpdateData d (mkUpdateData u)
    some (userOfDoc id d2,
      fun j => if j = id then some d2 else store j)

/-- DAO `UserDAO.deleteUser`: remove the document. -/
def UserDAO.deleteUser (store : Store) (id : String) : Store :=
  fun j => if j = id then none else store j

/-! ## The `AuthController` operations (routes/authRoutes.ts) -/

/-- What the controller responses expose that the claims speak about:
the HTTP status, the returned profile (under its canonical field names),
and the issued token. -/
structure HttpResp where
  status : Nat
  user : Option User
  token : Option Token
deriving Repr, DecidableEq

/-- Response with a status only (the error payloads carry just a message). -/
def HttpResp.err (s : Nat) : HttpResp := ⟨s, none, none⟩

/-- The `age` field of a register body: absent, a JSON string, or a JSON
number (integral in this model). -/
inductive AgeField where
  | missing
  | str (s : String)
  | num (n : Int)
deriving Repr, DecidableEq

/-- Result of `typeof rawAge === 'string' ? parseInt(rawAge, 10) : rawAge`:
still `undefined`, `NaN` (an unparsable string), or a number. -/
inductive CoercedAge where
  | undef
  | nan
  | num (n : Int)
deriving Repr, DecidableEq

/-- Coerce the raw `age` body field exactly as `register` does. -/
def coerceAge : AgeField → CoercedAge
  | .missing => .undef
  | .str s =>
    match parseInt10 s with
    | none => .nan
    | some n => .num n
  | .num n => .num n

/-- Request body of POST /register. -/
structure RegisterReq where
  name : Option String
  lastname : Option String
  email : Option String
  password : Option String
  confirmPassword : Option String
  age : AgeField
deriving Repr, DecidableEq

/-- Controller `register`: validate required fields (truthiness of the
normalized email included, `age === undefined`), confirm-password match,
coerced age ≥ 18 (a `NaN` age also fails here); then create the identity
account (modelled from the spec: the provider rejects an already-used
email with `auth/email-already-exists`, mapped to 409), create the profile
document with the provider uid, and sign a 24h session token
`{ userId: uid }`. `freshUid` is the uid the provider mints. -/
def register (st : ServerState) (req : RegisterReq) (freshUid : String)
    (secret : String) (now : Nat) : HttpResp × ServerState :=
  let age := coerceAge req.age
  let ne := req.email.map normEmail
  if ¬ (truthyS req.name ∧ truthyS req.lastname ∧ truthyS ne ∧
        truthyS req.password ∧ truthyS req.confirmPassword ∧
        age ≠ .undef) then (.err 400, st)
  else if req.password ≠ req.confirmPassword then (.err 400, st)
  else
    match age with
    | .num n =>
      if n < 18 then (.err 400, st)
      else
        let em := ne.getD ""
        match findByEmail st.auth em with
        | some _ => (.err 409, st)
        | none =>
          let acct : Account :=
            ⟨freshUid, em, req.password.getD "",
             req.name.getD "" ++ " " ++ req.lastname.getD "", false⟩
          let created := UserDAO.createUser st.store
            ⟨req.name.getD "", req.lastname.getD "", em,
             req.password.getD "", n, some "email", some freshUid⟩ freshUid
          let token := jwtSign ⟨some freshUid, none⟩ secret now DAY
          (⟨201, some created.1, some token⟩, ⟨acct :: st.auth, created.2⟩)
    | _ => (.err 400, st)

/-- Request body of POST /login. -/
structure LoginReq where
  email : Option String
  password : Option String
deriving Repr, DecidableEq

/-- Controller `login`: require both fields truthy, normalize the email,
verify the credential via the provider's REST endpoint (modelled from the
spec: unknown email and wrong password are 401, a disabled account 403),
sign a 7-day session token `{ userId, email }`, then fetch the profile by
uid and lazily create it from the account's display name when absent.
`freshId` stands for the generated document id (unused here since the uid
is always passed). -/
def login (st : ServerState) (req : LoginReq) (secret : String) (now : Nat)
    (freshId : String) : HttpResp × ServerState :=
  if ¬ (truthyS req.email ∧ truthyS req.password) then (.err 400, st)
  else
    let email := normEmail (req.email.getD "")
    match findByEmail st.auth email with
    | none => (.err 401, st)
    | some acct =>
      if acct.password ≠ req.password.getD "" then (.err 401, st)
      else if acct.disabled then (.err 403, st)
      else
        let token := jwtSign ⟨some acct.uid, some email⟩ secret now WEEK
        match st.store acct.uid with
        | some d => (⟨200, some (userOfDoc acct.uid d), some token⟩, st)
        | none =>
          let parts := splitSp acct.displayName.data
          let first := (parts.headD []).asString
          let created := UserDAO.createUser st.store
            ⟨if first ≠ "" then first else "Usuario",
             (joinSp parts.tail).asString,
             if acct.email ≠ "" then acct.email else email,
             "", 25, some "email", some acct.uid⟩ freshId
          (⟨200, some created.1, some token⟩, ⟨st.auth, created.2⟩)

/-- A Firebase ID token as `auth.verifyIdToken` sees it (modelled from the
spec: the provider's cryptographic verification is trusted entirely): it
either verifies to a decoded `{ uid, email?, name?, family_name? }` or the
SDK throws. -/
inductive IdToken where
  | invalid
  | valid (uid : String) (email : Option String) (name : Option String)
      (familyName : Option String)
deriving Repr, DecidableEq

/-- Request body of POST /login-social. -/
structure SocialReq where
  idToken : Option IdToken
  provider : Option String
deriving Repr, DecidableEq

/-- Controller `loginSocial`: require both fields, verify the external
token (a failure is caught by the generic 500 handler), lazily create the
profile from the decoded claims (default age 25, provider from the body;
a decoded token without an email makes the document write throw, modelled
from the store's rejection of undefined field values), and sign a 7-day
session token `{ userId: uid, email }`. -/
def loginSocial (st : ServerState) (req : SocialReq) (secret : String)
    (now : Nat) (freshId : String) : HttpResp × ServerState :=
  match req.idToken, truthyS req.provider with
  | some tok, true =>
    match tok with
    | .invalid => (.err 500, st)
    | .valid uid em nm fam =>
      match st.store uid with
      | some d =>
        let token := jwtSign ⟨some uid, em⟩ secret now WEEK
        (⟨200, some (userOfDoc uid d), some token⟩, st)
      | none =>
        match em with
        | none => (.err 500, st)
        | some e =>
          let created := UserDAO.createUser st.store
            ⟨if truthyS nm then nm.getD "" else "Usuario", fam.getD "",
             e, "", 25, req.provider, some uid⟩ freshId
          let token := jwtSign ⟨some uid, em⟩ secret now WEEK
          (⟨200, some created.1, some token⟩, ⟨st.auth, created.2⟩)
  | _, _ => (.err 400, st)

/-- Controller `getProfile`: 401 when `req.user?.userId` is falsy, 404
when the profile document is missing, else 200 with the profile. -/
def getProfileHandler (st : ServerState) (p : Payload) : HttpResp :=
  if truthyS p.userId then
    match UserDAO.getUserById st.store (p.userId.getD "") with
    | none => .err 404
    | some u => ⟨200, some u, none⟩
  else .err 401

/-- Controller `updateProfile`: 401 when `req.user?.userId` is falsy;
apply the partial update through the DAO (a missing document makes the
store throw, caught as 500) and return the refetched profile. -/
def updateProfileHandler (st : ServerState) (p : Payload)
    (body : UserUpdate) : HttpResp × ServerState :=
  if truthyS p.userId then
    match UserDAO.updateUser st.store (p.userId.getD "") body with
    | none => (.err 500, st)
    | some r => (⟨200, some r.1, none⟩, ⟨st.auth, r.2⟩)
  else (.err 401, st)

/-- Controller `deleteMe`: 401 when `req.user?.userId` is falsy; disable
the identity account (a missing account makes the provider throw, caught
as 500), delete the profile document, 200. -/
def deleteMeHandler (st : ServerState) (p : Payload) :
    HttpResp × ServerState :=
  if truthyS p.userId then
    let uid := p.userId.getD ""
    match setDisabled st.auth uid with
    | none => (.err 500, st)
    | some auth2 =>
      (⟨200, none, none⟩, ⟨auth2, UserDAO.deleteUser st.store uid⟩)
  else (.err 401, st)

/-- GET /profile: the middleware runs first; on rejection its status is
the response and the handler is never reached. -/
def getProfileRoute (st : ServerState) (h : AuthHeader) (secret : String)
    (now : Nat) : HttpResp :=
  match authenticateToken h secret now with
  | .reject s => .err s
  | .attach p => getProfileHandler st p

/-- PUT /profile behind the middleware. -/
def updateProfileRoute (st : ServerState) (h : AuthHeader)
    (body : UserUpdate) (secret : String) (now : Nat) :
    HttpResp × ServerState :=
  match authenticateToken h secret now with
  | .reject s => (.err s, st)
  | .attach p => updateProfileHandler st p body

/-- DELETE /profile behind the middleware. -/
def deleteMeRoute (st : ServerState) (h : AuthHeader) (secret : String)
    (now : Nat) : HttpResp × ServerState :=
  match authenticateToken h secret now with
  | .reject s => (.err s, st)
  | .attach p => deleteMeHandler st p

/-- Controller `forgotPassword`: 400 when the email field is falsy;
otherwise sign a 1-hour reset token `{ email }` for the email exactly as
received and send the recovery email (modelled from the spec: delivery
either succeeds or the notification adapter throws `DeliveryFailed`,
caught as 500). The second component is the recovery email actually sent:
recipient and embedded token. Neither the identity provider nor the
profile store is consulted. -/
def forgotPassword (_st : ServerState) (email : Option String)
    (secret : String) (now : Nat) (deliveryOk : Bool) :
    HttpResp × Option (String × Token) :=
  if truthyS email then
    let e := email.getD ""
    let resetToken := jwtSign ⟨none, some e⟩ secret now HOUR
    if deliveryOk then (⟨200, none, none⟩, some (e, resetToken))
    else (.err 500, none)
  else (.err 400, none)

/-- Request body of POST /reset-password. -/
structure ResetReq where
  token : Option Token
  newPassword : Option String
deriving Repr, DecidableEq

/-- Controller `resetPassword`: 400 when either field is falsy; verify the
token with the server's single secret (any failure falls to the generic
500 handler); read `decoded.email` with no check of the token's kind or
other claims; resolve the identity account by that email
(`auth.getUserByEmail`; a missing claim or unknown email throws, caught
as 500) and overwrite its password. -/
def resetPassword (st : ServerState) (req : ResetReq) (secret : String)
    (now : Nat) : HttpResp × ServerState :=
  match req.token, truthyS req.newPassword with
  | some t, true =>
    match jwtVerify t secret now with
    | .error _ => (.err 500, st)
    | .ok p =>
      match p.email with
      | none => (.err 500, st)
      | some em =>
        match findByEmail st.auth em with
        | none => (.err 500, st)
        | some acct =>
          (⟨200, none, none⟩,
           ⟨setPassword st.auth acct.uid (req.newPassword.getD ""),
            st.store⟩)
  | _, _ => (.err 400, st)

/-- The input-validation predicate of `register`, as checked in the source:
all required fields truthy (the normalized email included), matching
passwords, and a coerced age of at least 18. -/
abbrev ValidRegister (req : RegisterReq) (n : Int) : Prop :=
  truthyS req.name = true ∧ truthyS req.lastname = true ∧
  truthyS (req.email.map normEmail) = true ∧ truthyS req.password = true ∧
  truthyS req.confirmPassword = true ∧ req.password = req.confirmPassword ∧
  coerceAge req.age = .num n ∧ 18 ≤ n

/-! ## Concrete fixtures used to instantiate the theorems -/

/-- An empty deployment: no identity accounts, no profile documents. -/
def exState : ServerState := ⟨[], fun _ => none⟩

/-- The registration request of the specification's scenario, with the
age arriving as a numeric-string. -/
def anaReq : RegisterReq :=
  ⟨some "Ana", some "Lopez", some "ANA@X.com", some "p1", some "p1",
   .str "20"⟩

/-- The deployment after Ana registered (uid `u1`, time 0). -/
def exState1 : ServerState := (register exState anaReq "u1" "s" 0).2

/-- A session token as `login` issues it for Ana's account. -/
def exTok : Token := jwtSign ⟨some "u1", some "ana@x.com"⟩ "s" 10 WEEK

/-! ## Helper lemmas -/

/-- Truthiness of a present string is its non-emptiness. -/
theorem truthyS_some (s : String) : truthyS (some s) = decide (s ≠ "") := rfl

/-- A signed token verified with its own secret before its expiry decodes
to the signed payload. -/
theorem jwtVerify_sign_of_lt (p : Payload) (secret : String)
    (now ttl now2 : Nat) (h : now2 < now + ttl) :
    jwtVerify (jwtSign p secret now ttl) secret now2 = .ok p := by
  simp [jwtSign, jwtVerify, Nat.not_le.mpr h]

/-- A uid-preserving rewrite of the directory commutes with uid lookup. -/
theorem findByUid_map (l : List Account) (uid : String) (f : Account → Account)
    (hpres : ∀ a, (f a).uid = a.uid) :
    findByUid (l.map f) uid = (findByUid l uid).map f := by
  induction l with
  | nil => rfl
  | cons hd tl ih =>
    simp only [findByUid, List.map_cons, List.find?]
    rw [hpres hd]
    cases hb : (hd.uid == uid)
    · simpa [findByUid] using ih
    · simp

/-- Successful `setDisabled` maps the account list pointwise. -/
theorem setDisabled_eq (accounts : List Account) (uid : String)
    (a2 : List Account) (h : setDisabled accounts uid = some a2) :
    a2 = accounts.map
      (fun a => if a.uid = uid then { a with disabled := true } else a) := by
  unfold setDisabled at h
  cases hf : findByUid accounts uid <;> rw [hf] at h <;> simp_all

/-- Disabling an account rewrites exactly that account in the directory. -/
theorem findByUid_setDisabled_self (accounts : List Account) (uid : String)
    (a2 : List Account) (h : setDisabled accounts uid = some a2) :
    findByUid a2 uid =
      (findByUid accounts uid).map (fun a => { a with disabled := true }) := by
  rw [setDisabled_eq accounts uid a2 h]
  rw [findByUid_map]
  · cases hf : findByUid accounts uid with
    | none => rfl
    | some a =>
      have hf2 : List.find? (fun x => x.uid == uid) accounts = some a := hf
      have ha : a.uid = uid := by simpa using List.find?_some hf2
      simp [ha]
  · intro a
    by_cases hu : a.uid = uid <;> simp [hu]

/-! ## Claim C8: session-token round trip and expiry -/

/-- C8: a session token issued by login or register — signed over the
payload `{userId, email?}` — verified with the same secret before its
expiry decodes to the identity id used at issuance; and verifying any
signed token with its secret strictly after its expiry fails with the
Expired error. -/
theorem C8_holds (uid : String) (em : Option String) (secret : String)
    (now ttl : Nat) (p : Payload) (s2 : String) (iat e now2 : Nat) :
    (now2 < now + ttl →
      jwtVerify (jwtSign ⟨some uid, em⟩ secret now ttl) secret now2 =
        .ok ⟨some uid, em⟩) ∧
    (e < now2 →
      jwtVerify (.signed p s2 iat e) s2 now2 = .error .expired) := by
  constructor
  · intro h
    exact jwtVerify_sign_of_lt _ _ _ _ _ h
  · intro h
    simp [jwtVerify, Nat.le_of_lt h]

/-- C8 witness: the register token of the scenario at times 5 and 101. -/
theorem C8_witness :
    ((5 : Nat) < 0 + DAY ∧
      jwtVerify (jwtSign ⟨some "u1", none⟩ "s" 0 DAY) "s" 5 =
        .ok ⟨some "u1", none⟩) ∧
    ((100 : Nat) < 101 ∧
      jwtVerify (.signed ⟨some "u1", none⟩ "s" 0 100) "s" 101 =
        .error .expired) :=
  ⟨⟨by decide,
    (C8_holds "u1" none "s" 0 DAY ⟨some "u1", none⟩ "s" 0 100 5).1
      (by decide)⟩,
   ⟨by decide,
    (C8_holds "u1" none "s" 0 DAY ⟨some "u1", none⟩ "s" 0 100 101).2
      (by decide)⟩⟩

/-! ## Claim C10: forgot-password ignores account existence -/

/-- C10: forgotPassword with a non-empty email signs a 1-hour reset token
for that exact email string and sends the recovery email to it; it never
consults the identity provider or the profile store (its result is the
same in every state), and the response is 200 whenever delivery
succeeds, regardless of account existence. -/
theorem C10_holds (st st2 : ServerState) (e secret : String) (now : Nat)
    (deliveryOk : Bool) (he : e ≠ "") :
    forgotPassword st (some e) secret now deliveryOk =
      forgotPassword st2 (some e) secret now deliveryOk ∧
    (deliveryOk = true →
      forgotPassword st (some e) secret now deliveryOk =
        (⟨200, none, none⟩,
         some (e, jwtSign ⟨none, some e⟩ secret now HOUR))) := by
  refine ⟨rfl, ?_⟩
  intro hd
  subst hd
  simp [forgotPassword, truthyS, he]

/-- C10 witness: the same raw email against the empty deployment and the
deployment holding Ana's account. -/
theorem C10_witness :
    (" A@B.com " : String) ≠ "" ∧
    forgotPassword exState (some " A@B.com ") "s" 0 true =
      forgotPassword exState1 (some " A@B.com ") "s" 0 true ∧
    forgotPassword exState (some " A@B.com ") "s" 0 true =
      (⟨200, none, none⟩,
       some (" A@B.com ", jwtSign ⟨none, some " A@B.com "⟩ "s" 0 HOUR)) :=
  ⟨by decide,
   (C10_holds exState exState1 " A@B.com " "s" 0 true (by decide)).1,
   (C10_holds exState exState1 " A@B.com " "s" 0 true (by decide)).2 rfl⟩

/-! ## Claim C2: reset-password accepts session tokens -/

/-- C2: any token signed with the server's single secret whose payload
carries an email claim — in particular a session token `{userId, email}`
as issued by login and loginSocial — is accepted by resetPassword before
its expiry: with a non-empty newPassword it resolves the identity account
by that email and overwrites the account's password; no token-kind
discriminator is ever checked. -/
theorem C2_holds (st : ServerState) (uid e secret pw : String)
    (iat ttl now : Nat) (acct : Account)
    (hnow : now < iat + ttl) (hpw : pw ≠ "")
    (hacct : findByEmail st.auth e = some acct) :
    resetPassword st
        ⟨some (jwtSign ⟨some uid, some e⟩ secret iat ttl), some pw⟩
        secret now =
      (⟨200, none, none⟩, ⟨setPassword st.auth acct.uid pw, st.store⟩) := by
  have ht : truthyS (some pw) = true := by simp [truthyS, hpw]
  simp [resetPassword, ht, jwtVerify_sign_of_lt _ _ _ _ _ hnow, hacct]

/-- C2 witness: the 7-day session token `login` issues for Ana's account,
used as a reset token at time 20 with the new password `newpw`. -/
theorem C2_witness :
    (20 : Nat) < 10 + WEEK ∧ ("newpw" : String) ≠ "" ∧
    findByEmail exState1.auth "ana@x.com" =
      some ⟨"u1", "ana@x.com", "p1", "Ana Lopez", false⟩ ∧
    resetPassword exState1 ⟨some exTok, some "newpw"⟩ "s" 20 =
      (⟨200, none, none⟩,
       ⟨setPassword exState1.auth "u1" "newpw", exState1.store⟩) :=
  ⟨by decide, by decide, by decide,
   C2_holds exState1 "u1" "ana@x.com" "s" "newpw" 10 WEEK 20
     ⟨"u1", "ana@x.com", "p1", "Ana Lopez", false⟩
     (by decide) (by decide) (by decide)⟩

/-! ## Claims C4 and C9: update-profile semantics -/

/-- Truthiness filtering then defaulting, for string fields. -/
theorem getD_truthyS (o : Option String) (dflt : String) :
    (if truthyS o then o else none).getD dflt =
      if truthyS o then o.getD "" else dflt := by
  cases o with
  | none => simp [truthyS]
  | some s => by_cases h : s = "" <;> simp [truthyS, h]

/-- Truthiness filtering then defaulting, for the age field. -/
theorem getD_truthyI (o : Option Int) (dflt : Int) :
    (if truthyI o then o else none).getD dflt =
      if truthyI o then o.getD 0 else dflt := by
  cases o with
  | none => simp [truthyI]
  | some n => by_cases h : n = 0 <;> simp [truthyI, h]

/-- C4: for every stored profile and partial payload, updateProfile
changes exactly the fields whose values are present and truthy and
preserves every other field — the document key and the provider in
particular; an empty payload leaves the stored document unchanged, and a
present-but-falsy value (empty string, zero) leaves that field
unchanged. -/
theorem C4_holds (st : ServerState) (uid : String) (pem : Option String)
    (body : UserUpdate) (d : UserDoc) (hu : uid ≠ "")
    (hd : st.store uid = some d) :
    (updateProfileHandler st ⟨some uid, pem⟩ body).1.status = 200 ∧
    (updateProfileHandler st ⟨some uid, pem⟩ body).2.store uid =
      some ⟨if truthyS body.name then body.name.getD "" else d.name,
            if truthyS body.lastname then body.lastname.getD ""
              else d.lastname,
            if truthyS body.email then body.email.getD "" else d.email,
            if truthyI body.age then body.age.getD 0 else d.age,
            d.provider⟩ ∧
    ((updateProfileHandler st ⟨some uid, pem⟩ body).1.user.map User.id) =
      some uid ∧
    ((updateProfileHandler st ⟨some uid, pem⟩ body).1.user.map
        User.provider) = some d.provider ∧
    (body = ⟨none, none, none, none⟩ →
      (updateProfileHandler st ⟨some uid, pem⟩ body).2.store uid =
        some d) := by
  have ht : truthyS (some uid) = true := by simp [truthyS, hu]
  refine ⟨?_, ?_, ?_, ?_, ?_⟩ <;>
    simp [updateProfileHandler, UserDAO.updateUser, ht, hd, userOfDoc,
      applyUpdateData, mkUpdateData, getD_truthyS, getD_truthyI]
  intro hb
  subst hb
  simp [truthyS, truthyI]

/-- C4 witness: a falsy name, a truthy email and a zero age against Ana's
stored profile. -/
theorem C4_witness :
    ("u1" : String) ≠ "" ∧
    exState1.store "u1" = some ⟨"Ana", "Lopez", "ana@x.com", 20, "email"⟩ ∧
    (updateProfileHandler exState1 ⟨some "u1", none⟩
        ⟨some "", none, some "x@y.z", some 0⟩).2.store "u1" =
      some ⟨"Ana", "Lopez", "x@y.z", 20, "email"⟩ :=
  ⟨by decide, by decide, by
    have h := (C4_holds exState1 "u1" none
      ⟨some "", none, some "x@y.z", some 0⟩
      ⟨"Ana", "Lopez", "ana@x.com", 20, "email"⟩
      (by decide) (by decide)).2.1
    simpa [truthyS, truthyI] using h⟩

/-- C9: updateProfile writes only the authenticated user's single profile
document; the identity-provider directory is never modified, so a truthy
email in the payload changes the stored profile's email while every
identity account — hence the email used to log in — stays as it was. -/
theorem C9_holds (st : ServerState) (uid : String) (pem : Option String)
    (body : UserUpdate) (d : UserDoc) (hu : uid ≠ "")
    (hd : st.store uid = some d) :
    (updateProfileHandler st ⟨some uid, pem⟩ body).2.auth = st.auth ∧
    (∀ j, j ≠ uid →
      (updateProfileHandler st ⟨some uid, pem⟩ body).2.store j =
        st.store j) ∧
    (truthyS body.email = true →
      ((updateProfileHandler st ⟨some uid, pem⟩ body).2.store uid).map
          UserDoc.email = some (body.email.getD "")) := by
  have ht : truthyS (some uid) = true := by simp [truthyS, hu]
  refine ⟨?_, ?_, ?_⟩
  · simp [updateProfileHandler, UserDAO.updateUser, ht, hd]
  · intro j hj
    simp [updateProfileHandler, UserDAO.updateUser, ht, hd, hj]
  · intro he
    cases hbe : body.email with
    | none => rw [hbe] at he; simp [truthyS] at he
    | some s =>
      have he2 : truthyS (some s) = true := hbe ▸ he
      simp [updateProfileHandler, UserDAO.updateUser, ht, hd,
        applyUpdateData, mkUpdateData, hbe, he2]

/-- C9 witness: updating Ana's profile email to `x@y.z` leaves the
identity directory untouched and every other document unchanged. -/
theorem C9_witness :
    ("u1" : String) ≠ "" ∧
    exState1.store "u1" = some ⟨"Ana", "Lopez", "ana@x.com", 20, "email"⟩ ∧
    (updateProfileHandler exState1 ⟨some "u1", none⟩
        ⟨none, none, some "x@y.z", none⟩).2.auth = exState1.auth ∧
    (updateProfileHandler exState1 ⟨some "u1", none⟩
        ⟨none, none, some "x@y.z", none⟩).2.store "other" =
      exState1.store "other" ∧
    ((updateProfileHandler exState1 ⟨some "u1", none⟩
        ⟨none, none, some "x@y.z", none⟩).2.store "u1").map UserDoc.email =
      some "x@y.z" :=
  ⟨by decide, by decide,
   (C9_holds exState1 "u1" none ⟨none, none, some "x@y.z", none⟩
     ⟨"Ana", "Lopez", "ana@x.com", 20, "email"⟩ (by decide) (by decide)).1,
   (C9_holds exState1 "u1" none ⟨none, none, some "x@y.z", none⟩
     ⟨"Ana", "Lopez", "ana@x.com", 20, "email"⟩ (by decide)
     (by decide)).2.1 "other" (by decide),
   by
    have h := (C9_holds exState1 "u1" none
      ⟨none, none, some "x@y.z", none⟩
      ⟨"Ana", "Lopez", "ana@x.com", 20, "email"⟩
      (by decide) (by decide)).2.2 (by decide)
    simpa using h⟩

/-! ## Claims C6, C7 and C3: register, its normalization, and conflicts -/

/-- A register request that passes all validations and whose normalized
email is free creates the account, creates the profile document under the
provider's uid, and answers 201 with the profile and a 24h token. -/
theorem register_eq_of_valid (st : ServerState) (req : RegisterReq)
    (freshUid secret : String) (now : Nat) (n : Int) (raw : String)
    (hv : ValidRegister req n) (hraw : req.email = some raw)
    (hfresh : findByEmail st.auth (normEmail raw) = none) :
    register st req freshUid secret now =
      (⟨201,
        some ⟨freshUid, req.name.getD "", req.lastname.getD "",
          normEmail raw, n, "email"⟩,
        some (jwtSign ⟨some freshUid, none⟩ secret now DAY)⟩,
       ⟨⟨freshUid, normEmail raw, req.password.getD "",
          req.name.getD "" ++ " " ++ req.lastname.getD "", false⟩ ::
          st.auth,
        fun j => if j = freshUid then
            some ⟨req.name.getD "", req.lastname.getD "", normEmail raw,
              n, "email"⟩
          else st.store j⟩) := by
  obtain ⟨h1, h2, h3, h4, h5, h6, h7, h8⟩ := hv
  rw [hraw] at h3
  have h3b : truthyS (some (normEmail raw)) = true := by simpa using h3
  simp [register, h1, h2, h3b, h4, h5, h6, h7, hraw, hfresh,
    Int.not_lt.mpr h8, UserDAO.createUser]

/-- A register request that passes all validations but whose normalized
email is already registered answers 409 and leaves the state untouched. -/
theorem register_conflict (st : ServerState) (req : RegisterReq)
    (freshUid secret : String) (now : Nat) (n : Int) (raw : String)
    (a : Account) (hv : ValidRegister req n) (hraw : req.email = some raw)
    (hdup : findByEmail st.auth (normEmail raw) = some a) :
    register st req freshUid secret now = (.err 409, st) := by
  obtain ⟨h1, h2, h3, h4, h5, h6, h7, h8⟩ := hv
  rw [hraw] at h3
  have h3b : truthyS (some (normEmail raw)) = true := by simpa using h3
  simp [register, h1, h2, h3b, h4, h5, h6, h7, hraw, hdup,
    Int.not_lt.mpr h8, HttpResp.err]

/-- C6: a valid registration (age ≥ 18, matching passwords) succeeds with
201 exactly once per distinct normalized email: a second valid register
whose email normalizes to the same address answers 409 Conflict and
returns the state unchanged — no new account and no new profile record. -/
theorem C6_holds (st : ServerState) (req req2 : RegisterReq)
    (freshUid freshUid2 secret secret2 : String) (now now2 : Nat)
    (n n2 : Int) (raw raw2 : String)
    (hv : ValidRegister req n) (hraw : req.email = some raw)
    (hfresh : findByEmail st.auth (normEmail raw) = none)
    (hv2 : ValidRegister req2 n2) (hraw2 : req2.email = some raw2)
    (hsame : normEmail raw2 = normEmail raw) :
    (register st req freshUid secret now).1.status = 201 ∧
    register (register st req freshUid secret now).2 req2 freshUid2
        secret2 now2 =
      (.err 409, (register st req freshUid secret now).2) := by
  have h1 := register_eq_of_valid st req freshUid secret now n raw hv
    hraw hfresh
  constructor
  · rw [h1]
  · refine register_conflict _ req2 freshUid2 secret2 now2 n2 raw2
      ⟨freshUid, normEmail raw, req.password.getD "",
        req.name.getD "" ++ " " ++ req.lastname.getD "", false⟩
      hv2 hraw2 ?_
    rw [h1, hsame]
    simp [findByEmail, List.find?]

/-- C6 witness: Ana registers against the empty deployment; a second
registration with the differently-written same email conflicts and
leaves the state exactly as it was. -/
theorem C6_witness :
    ValidRegister anaReq 20 ∧ anaReq.email = some "ANA@X.com" ∧
    findByEmail exState.auth (normEmail "ANA@X.com") = none ∧
    ValidRegister ⟨some "B", some "C", some " ana@X.COM", some "q",
      some "q", .num 30⟩ 30 ∧
    normEmail " ana@X.COM" = normEmail "ANA@X.com" ∧
    ((register exState anaReq "u1" "s" 0).1.status = 201 ∧
     register (register exState anaReq "u1" "s" 0).2
         ⟨some "B", some "C", some " ana@X.COM", some "q", some "q",
          .num 30⟩ "u2" "s2" 7 =
       (.err 409, (register exState anaReq "u1" "s" 0).2)) :=
  ⟨by decide, rfl, by decide, by decide, by decide,
   C6_holds exState anaReq
     ⟨some "B", some "C", some " ana@X.COM", some "q", some "q", .num 30⟩
     "u1" "u2" "s" "s2" 0 7 20 30 "ANA@X.com" " ana@X.COM"
     (by decide) rfl (by decide) (by decide) rfl (by decide)⟩

/-- C7: a register request with all required fields, matching passwords
and a coerced age of at least 18, against a deployment where the
normalized email is free, answers 201 with a profile storing the trimmed
lowercased email, the coerced integer age, provider `email`, and id equal
to the identity provider's uid. -/
theorem C7_holds (st : ServerState) (req : RegisterReq)
    (freshUid secret : String) (now : Nat) (n : Int) (raw : String)
    (hv : ValidRegister req n) (hraw : req.email = some raw)
    (hfresh : findByEmail st.auth (normEmail raw) = none) :
    (register st req freshUid secret now).1.status = 201 ∧
    (register st req freshUid secret now).1.user.map User.email =
      some (normEmail raw) ∧
    (register st req freshUid secret now).1.user.map User.age = some n ∧
    (register st req freshUid secret now).1.user.map User.provider =
      some "email" ∧
    (register st req freshUid secret now).1.user.map User.id =
      some freshUid := by
  rw [register_eq_of_valid st req freshUid secret now n raw hv hraw hfresh]
  simp

/-- C7 witness: the scenario request (email `ANA@X.com`, numeric-string
age `20`) yields 201, email `ana@x.com` and age 20. -/
theorem C7_witness :
    ValidRegister anaReq 20 ∧ anaReq.email = some "ANA@X.com" ∧
    findByEmail exState.auth (normEmail "ANA@X.com") = none ∧
    normEmail "ANA@X.com" = "ana@x.com" ∧
    ((register exState anaReq "u1" "s" 0).1.status = 201 ∧
     (register exState anaReq "u1" "s" 0).1.user.map User.email =
       some (normEmail "ANA@X.com") ∧
     (register exState anaReq "u1" "s" 0).1.user.map User.age = some 20 ∧
     (register exState anaReq "u1" "s" 0).1.user.map User.provider =
       some "email" ∧
     (register exState anaReq "u1" "s" 0).1.user.map User.id =
       some "u1") :=
  ⟨by decide, rfl, by decide, by decide,
   C7_holds exState anaReq "u1" "s" 0 20 "ANA@X.com"
     (by decide) rfl (by decide)⟩

/-- C3 counterexample: forgotPassword creates the reset token keyed by
the exact raw email string `" A@B.com "` — not trimmed, not lowercased —
so not every email-keyed creation normalizes the email first. -/
theorem C3_counterexample :
    (forgotPassword exState1 (some " A@B.com ") "s" 0 true).2 =
      some (" A@B.com ", jwtSign ⟨none, some " A@B.com "⟩ "s" 0 HOUR) ∧
    normEmail " A@B.com " = "a@b.com" ∧
    (" A@B.com " : String) ≠ "a@b.com" :=
  ⟨by decide, by decide, by decide⟩

/-- C3 (amended): register and login trim and lowercase the email before
creation and lookup — so `register(" A@B.com ")` and `login("a@b.com")`
refer to the same account — but forgotPassword signs the reset token for
the exact raw email string, resetPassword resolves the identity account
by the exact raw decoded email claim, and loginSocial stores the decoded
token email verbatim: none of these three normalize. -/
theorem C3_holds (st : ServerState) (req : RegisterReq)
    (freshUid secret : String) (now : Nat) (n : Int) (raw raw2 : String)
    (now2 : Nat) (fid : String)
    (hv : ValidRegister req n) (hraw : req.email = some raw)
    (hfresh : findByEmail st.auth (normEmail raw) = none)
    (hraw2 : raw2 ≠ "") (hn : normEmail raw2 = normEmail raw) :
    (register st req freshUid secret now).1.user.map User.email =
      some (normEmail raw) ∧
    findByEmail (register st req freshUid secret now).2.auth
        (normEmail raw) =
      some ⟨freshUid, normEmail raw, req.password.getD "",
        req.name.getD "" ++ " " ++ req.lastname.getD "", false⟩ ∧
    ((login (register st req freshUid secret now).2
        ⟨some raw2, req.password⟩ secret now2 fid).1.status = 200 ∧
     (login (register st req freshUid secret now).2
        ⟨some raw2, req.password⟩ secret now2 fid).1.user.map User.id =
       some freshUid) ∧
    (∀ (st3 : ServerState) (e secret3 : String) (now3 : Nat), e ≠ "" →
      (forgotPassword st3 (some e) secret3 now3 true).2 =
        some (e, jwtSign ⟨none, some e⟩ secret3 now3 HOUR)) ∧
    (∀ (st4 : ServerState) (u4 : Option String)
        (em4 secret4 pw4 : String) (iat4 ttl4 now4 : Nat),
      now4 < iat4 + ttl4 → pw4 ≠ "" →
      resetPassword st4
          ⟨some (jwtSign ⟨u4, some em4⟩ secret4 iat4 ttl4), some pw4⟩
          secret4 now4 =
        (match findByEmail st4.auth em4 with
         | none => (.err 500, st4)
         | some acct =>
           (⟨200, none, none⟩,
            ⟨setPassword st4.auth acct.uid pw4, st4.store⟩))) ∧
    (∀ (st5 : ServerState) (uid5 e5 prov fid5 secret5 : String)
        (nm fam : Option String) (now5 : Nat),
      uid5 ≠ "" → prov ≠ "" → st5.store uid5 = none →
      ((loginSocial st5 ⟨some (.valid uid5 (some e5) nm fam), some prov⟩
          secret5 now5 fid5).2.store uid5).map UserDoc.email =
        some e5) := by
  have hreg := register_eq_of_valid st req freshUid secret now n raw hv
    hraw hfresh
  have htp : truthyS req.password = true := hv.2.2.2.1
  have htr2 : truthyS (some raw2) = true := by simp [truthyS, hraw2]
  refine ⟨?_, ?_, ?_, ?_, ?_, ?_⟩
  · rw [hreg]
    rfl
  · rw [hreg]
    simp [findByEmail, List.find?]
  · rw [hreg]
    simp [login, htp, htr2, hn, findByEmail, List.find?, userOfDoc]
  · intro st3 e secret3 now3 he
    simp [forgotPassword, truthyS, he]
  · intro st4 u4 em4 secret4 pw4 iat4 ttl4 now4 hlt hpw4
    have ht4 : truthyS (some pw4) = true := by simp [truthyS, hpw4]
    have hv4 := jwtVerify_sign_of_lt ⟨u4, some em4⟩ secret4 iat4 ttl4
      now4 hlt
    cases hfe : findByEmail st4.auth em4 with
    | none => simp [resetPassword, ht4, hv4, hfe]
    | some acct => simp [resetPassword, ht4, hv4, hfe]
  · intro st5 uid5 e5 prov fid5 secret5 nm fam now5 hu5 hp5 hst5
    have htp5 : truthyS (some prov) = true := by simp [truthyS, hp5]
    simp [loginSocial, htp5, hst5, UserDAO.createUser, hu5]

/-- C3 witness: Ana registers with the raw email `ANA@X.com`; logging in
with `ana@x.com` reaches the same account; forgotPassword keeps the raw
`" A@B.com "` verbatim; resetPassword looks up the raw uppercase claim
`ANA@X.com` and so misses the account stored as `ana@x.com`; and
loginSocial stores the decoded email `G@Mail.com` verbatim. -/
theorem C3_witness :
    ValidRegister anaReq 20 ∧ anaReq.email = some "ANA@X.com" ∧
    findByEmail exState.auth (normEmail "ANA@X.com") = none ∧
    ("ana@x.com" : String) ≠ "" ∧
    normEmail "ana@x.com" = normEmail "ANA@X.com" ∧
    ((register exState anaReq "u1" "s" 0).1.user.map User.email =
       some (normEmail "ANA@X.com") ∧
     findByEmail (register exState anaReq "u1" "s" 0).2.auth
         (normEmail "ANA@X.com") =
       some ⟨"u1", normEmail "ANA@X.com", "p1", "Ana Lopez", false⟩ ∧
     ((login (register exState anaReq "u1" "s" 0).2
         ⟨some "ana@x.com", some "p1"⟩ "s" 9 "f").1.status = 200 ∧
      (login (register exState anaReq "u1" "s" 0).2
         ⟨some "ana@x.com", some "p1"⟩ "s" 9 "f").1.user.map User.id =
        some "u1")) ∧
    (forgotPassword exState1 (some " A@B.com ") "s2" 3 true).2 =
      some (" A@B.com ", jwtSign ⟨none, some " A@B.com "⟩ "s2" 3 HOUR) ∧
    resetPassword exState1
        ⟨some (jwtSign ⟨some "u1", some "ANA@X.com"⟩ "s" 0 HOUR),
         some "npw"⟩ "s" 5 =
      (.err 500, exState1) ∧
    ((loginSocial exState1
        ⟨some (.valid "u9" (some "G@Mail.com") none none), some "google"⟩
        "s" 4 "f").2.store "u9").map UserDoc.email = some "G@Mail.com" :=
  have happ := C3_holds exState anaReq "u1" "s" 0 20 "ANA@X.com"
    "ana@x.com" 9 "f" (by decide) rfl (by decide) (by decide) (by decide)
  ⟨by decide, rfl, by decide, by decide, by decide,
   ⟨happ.1, happ.2.1, happ.2.2.1⟩,
   happ.2.2.2.1 exState1 " A@B.com " "s2" 3 (by decide),
   by
    have h := happ.2.2.2.2.1 exState1 (some "u1") "ANA@X.com" "s" "npw"
      0 HOUR 5 (by decide) (by decide)
    have hfe : findByEmail exState1.auth "ANA@X.com" = none := by decide
    rw [hfe] at h
    exact h,
   happ.2.2.2.2.2 exState1 "u9" "G@Mail.com" "google" "f" "s" none none 4
     (by decide) (by decide) (by decide)⟩

/-! ## Claim C1: protected endpoints and invalid sessions -/

/-- C1 counterexample: a GET /profile request carrying a token with a bad
signature is answered with status 403, not 401 — the middleware reserves
401 for an absent token and sends 403 on any verification failure. -/
theorem C1_counterexample :
    getProfileRoute exState1
        (.bearer (.signed ⟨some "u1", none⟩ "wrong" 0 100)) "s" 0 =
      .err 403 ∧
    (HttpResp.err 403).status ≠ 401 :=
  ⟨by decide, by decide⟩

/-- C1 (amended): on every request to a protected endpoint (GET /profile,
PUT /profile, DELETE /profile) whose session is missing or invalid, the
route handler is never reached (the state is untouched and the response
is the middleware's): with no extractable bearer token the status is 401,
and with a token that fails verification — malformed, bad signature, or
expired — the status is 403. -/
theorem C1_holds (st : ServerState) (body : UserUpdate) (h : AuthHeader)
    (secret : String) (now : Nat) :
    (tokenOf h = none →
      getProfileRoute st h secret now = .err 401 ∧
      updateProfileRoute st h body secret now = (.err 401, st) ∧
      deleteMeRoute st h secret now = (.err 401, st)) ∧
    (∀ t e, tokenOf h = some t → jwtVerify t secret now = .error e →
      getProfileRoute st h secret now = .err 403 ∧
      updateProfileRoute st h body secret now = (.err 403, st) ∧
      deleteMeRoute st h secret now = (.err 403, st)) := by
  constructor
  · intro hn
    simp [getProfileRoute, updateProfileRoute, deleteMeRoute,
      authenticateToken, hn]
  · intro t e ht he
    simp [getProfileRoute, updateProfileRoute, deleteMeRoute,
      authenticateToken, ht, he]

/-- C1 witness: a missing header is rejected with 401, an expired token
with 403, on all three protected routes, with the state untouched. -/
theorem C1_witness :
    (tokenOf .missing = none ∧
      getProfileRoute exState1 .missing "s" 0 = .err 401 ∧
      updateProfileRoute exState1 .missing ⟨none, none, none, none⟩ "s" 0 =
        (.err 401, exState1) ∧
      deleteMeRoute exState1 .missing "s" 0 = (.err 401, exState1)) ∧
    (tokenOf (.bearer (.signed ⟨some "u1", none⟩ "s" 0 100)) =
        some (.signed ⟨some "u1", none⟩ "s" 0 100) ∧
      jwtVerify (.signed ⟨some "u1", none⟩ "s" 0 100) "s" 500 =
        .error .expired ∧
      getProfileRoute exState1
          (.bearer (.signed ⟨some "u1", none⟩ "s" 0 100)) "s" 500 =
        .err 403 ∧
      updateProfileRoute exState1
          (.bearer (.signed ⟨some "u1", none⟩ "s" 0 100))
          ⟨none, none, none, none⟩ "s" 500 =
        (.err 403, exState1) ∧
      deleteMeRoute exState1
          (.bearer (.signed ⟨some "u1", none⟩ "s" 0 100)) "s" 500 =
        (.err 403, exState1)) :=
  ⟨⟨rfl,
    (C1_holds exState1 ⟨none, none, none, none⟩ .missing "s" 0).1 rfl⟩,
   ⟨rfl, rfl,
    (C1_holds exState1 ⟨none, none, none, none⟩
        (.bearer (.signed ⟨some "u1", none⟩ "s" 0 100)) "s" 500).2
      (.signed ⟨some "u1", none⟩ "s" 0 100) .expired rfl rfl⟩⟩

/-! ## Claim C5: delete-then-get with the stale session token -/

/-- C5: after a successful deleteMe the profile document is removed and
the identity account disabled; a subsequent getProfile with the same
not-yet-expired session token reaches the handler (the token still
verifies — there is no revocation list) and answers 404 NotFound for the
profile lookup. -/
theorem C5_holds (st : ServerState) (uid : String) (em : Option String)
    (secret : String) (iat e now now2 : Nat) (acct : Account)
    (hu : uid ≠ "") (h1 : now < e) (h2 : now2 < e)
    (hacct : findByUid st.auth uid = some acct) :
    (deleteMeRoute st (.bearer (.signed ⟨some uid, em⟩ secret iat e))
        secret now).1.status = 200 ∧
    (deleteMeRoute st (.bearer (.signed ⟨some uid, em⟩ secret iat e))
        secret now).2.store uid = none ∧
    findByUid (deleteMeRoute st
        (.bearer (.signed ⟨some uid, em⟩ secret iat e)) secret now).2.auth
        uid = some { acct with disabled := true } ∧
    jwtVerify (.signed ⟨some uid, em⟩ secret iat e) secret now2 =
      .ok ⟨some uid, em⟩ ∧
    (getProfileRoute (deleteMeRoute st
        (.bearer (.signed ⟨some uid, em⟩ secret iat e)) secret now).2
        (.bearer (.signed ⟨some uid, em⟩ secret iat e)) secret now2) =
      .err 404 := by
  have ht : truthyS (some uid) = true := by simp [truthyS, hu]
  have hv1 : jwtVerify (.signed ⟨some uid, em⟩ secret iat e) secret now =
      .ok ⟨some uid, em⟩ := by
    simp [jwtVerify, Nat.not_le.mpr h1]
  have hv2 : jwtVerify (.signed ⟨some uid, em⟩ secret iat e) secret now2 =
      .ok ⟨some uid, em⟩ := by
    simp [jwtVerify, Nat.not_le.mpr h2]
  have hsd : setDisabled st.auth uid =
      some (st.auth.map fun a =>
        if a.uid = uid then { a with disabled := true } else a) := by
    simp [setDisabled, hacct]
  refine ⟨?_, ?_, ?_, hv2, ?_⟩
  · simp [deleteMeRoute, authenticateToken, tokenOf, hv1, deleteMeHandler,
      ht, hsd]
  · simp [deleteMeRoute, authenticateToken, tokenOf, hv1, deleteMeHandler,
      ht, hsd, UserDAO.deleteUser]
  · simp [deleteMeRoute, authenticateToken, tokenOf, hv1, deleteMeHandler,
      ht, hsd]
    rw [findByUid_setDisabled_self st.auth uid _ hsd, hacct]
    rfl
  · simp [deleteMeRoute, authenticateToken, tokenOf, hv1, deleteMeHandler,
      ht, hsd, getProfileRoute, hv2, getProfileHandler,
      UserDAO.getUserById, UserDAO.deleteUser]

/-- C5 witness: Ana deletes her account at time 20 and replays her 7-day
session token at time 30. -/
theorem C5_witness :
    ("u1" : String) ≠ "" ∧ (20 : Nat) < 10 + WEEK ∧
    (30 : Nat) < 10 + WEEK ∧
    findByUid exState1.auth "u1" =
      some ⟨"u1", "ana@x.com", "p1", "Ana Lopez", false⟩ ∧
    ((deleteMeRoute exState1 (.bearer exTok) "s" 20).1.status = 200 ∧
     (deleteMeRoute exState1 (.bearer exTok) "s" 20).2.store "u1" =
       none ∧
     findByUid (deleteMeRoute exState1 (.bearer exTok) "s" 20).2.auth
         "u1" = some ⟨"u1", "ana@x.com", "p1", "Ana Lopez", true⟩ ∧
     jwtVerify exTok "s" 30 = .ok ⟨some "u1", some "ana@x.com"⟩ ∧
     getProfileRoute (deleteMeRoute exState1 (.bearer exTok) "s" 20).2
         (.bearer exTok) "s" 30 = .err 404) :=
  ⟨by decide, by decide, by decide, by decide,
   C5_holds exState1 "u1" (some "ana@x.com") "s" 10 (10 + WEEK) 20 30
     ⟨"u1", "ana@x.com", "p1", "Ana Lopez", false⟩
     (by decide) (by decide) (by decide) (by decide)⟩

end RT
